import Mathlib

-- Verification development for the memcached-family key/value server core
-- (daemon/statemachine_mcbp.cc, daemon/connections.cc, daemon/cookie.cc,
-- daemon/connection.h, daemon/protocol/mcbp/dcp_deletion.cc).
--
-- The C++ sources are embedded shallowly: each C++ function becomes a pure
-- Lean function over an explicit record of the connection fields it touches.
-- External effects (the network, libevent registration, the storage engine,
-- the executor table) are abstracted as oracle parameters: one oracle value
-- is consumed per state-machine callback and decides the outcome of the
-- corresponding external call.  Code that exists in the repository but not
-- in this tree (event_handler, try_read_mcbp_command,
-- conn_cleanup_engine_allocations, the wire-struct headers) is modelled from
-- the specification and marked as such in the doc comment.

set_option maxHeartbeats 1000000

-- ===========================================================================
-- State machine cluster (daemon/statemachine_mcbp.cc)
-- ===========================================================================

/-- States of the McbpStateMachine, one per conn_* task function
(statemachine_mcbp.cc). -/
inductive CState where
  | new_cmd
  | waiting
  | read_packet_header
  | parse_cmd
  | read_packet_body
  | execute
  | send_data
  | ship_log
  | closing
  | pending_close
  | immediate_close
  | destroyed
  deriving DecidableEq, Repr

/-- Result codes of McbpConnection::transmit (connection.h).  On HardError the
connection state is forced to conn_closing by transmit itself. -/
inductive TransmitResult where
  | Complete
  | Incomplete
  | SoftError
  | HardError
  deriving DecidableEq, Repr

/-- Outcome of one socket-receive attempt, covering the cases distinguished by
McbpConnection::tryReadNetwork and by the raw recv used in
conn_read_packet_body: data n models a positive return of n bytes, closed an
end-of-stream (res == 0), blocked an EAGAIN, sockerr a hard socket error and
memerr an input-buffer allocation failure. -/
inductive RecvO where
  | data (n : Nat)
  | closed
  | blocked
  | sockerr
  | memerr
  deriving DecidableEq, Repr

/-- Outcome of mcbp_execute_packet as observable by conn_execute: the executor
contract (spec section 4.3) requires it to leave the execute state, either by
moving to new_cmd, to send_data (with write_and_go = new_cmd, as
Cookie::sendResponse does), to closing, or by parking with EWOULDBLOCK. -/
inductive ExecO where
  | toNewCmd
  | toSendData
  | toClosing
  | ewouldblock
  deriving DecidableEq, Repr

/-- Shallow model of one McbpConnection as driven by the state machine.  The
read Pipe is modelled as the list of total sizes (header plus body, each at
least 24) of the frames the client will send, together with avail, the number
of bytes of that stream currently buffered; rsize() is avail.  reservedItems
and released track Connection::reservedItems and the item_release calls the
engine has received.  disconnectNotices counts ON_DISCONNECT callbacks. -/
structure SMConn where
  state : CState
  write_and_go : CState
  numEvents : Int
  max_reqs_per_event : Int
  dcp : Bool
  ssl : Bool
  evRead : Bool
  evWrite : Bool
  ewouldblock : Bool
  refcount : Nat
  socketOpen : Bool
  registered : Bool
  hasThread : Bool
  frames : List Nat
  avail : Nat
  reservedItems : List Nat
  released : List Nat
  tempAllocCount : Nat
  disconnectNotices : Nat
  deriving DecidableEq, Repr

/-- McbpStateMachine::setCurrentTask (statemachine_mcbp.cc lines 31-72): for a
DCP connection a move to conn_waiting is redirected to conn_ship_log with the
current event forced to a write event; every other move is taken as is (the
setStart bookkeeping on read_packet_header has no observable effect here). -/
def setStateM (c : SMConn) (s : CState) : SMConn :=
  if c.dcp = true ∧ s = CState.waiting then
    { c with state := CState.ship_log, evRead := false, evWrite := true }
  else
    { c with state := s }

/-- Connection::isPacketAvailable (connection.h lines 873-885): the next
packet is complete when the buffered bytes cover the whole first frame. -/
def isPacketAvailable (c : SMConn) : Bool :=
  match c.frames with
  | [] => false
  | f :: _ => decide (f ≤ c.avail)

/-- The read->consume call at the end of conn_execute (statemachine_mcbp.cc
lines 318-327): drop the executed frame from the input pipe; none models the
logic_error thrown when the buffer holds fewer bytes than the frame. -/
def consumePacket (c : SMConn) : Option SMConn :=
  match c.frames with
  | [] => none
  | f :: rest =>
      if f ≤ c.avail then some { c with frames := rest, avail := c.avail - f }
      else none

/-- reset_cmd_handler (statemachine_mcbp.cc lines 105-119): after per-command
state is reset, go to parse_cmd when a full header (24 bytes) is buffered, to
read_packet_header under SSL, and to waiting otherwise. -/
def reset_cmd_handler (c : SMConn) : SMConn :=
  if 24 ≤ c.avail then setStateM c CState.parse_cmd
  else if c.ssl then setStateM c CState.read_packet_header
  else setStateM c CState.waiting

/-- Modelled from the spec: is_bucket_dying (memcached.cc, not in this tree)
checks for shutdown or a dying bucket and, when dying, moves the connection to
conn_closing and returns true.  The callbacks below take its verdict as the
oracle Bool dying. -/
def bucketDyingStep (c : SMConn) : SMConn × Bool :=
  (setStateM c CState.closing, true)

/-- conn_new_cmd (statemachine_mcbp.cc lines 235-288): decrement numEvents and
start the next command while the budget lasts; once exhausted, yield, first
registering a write event when input is already buffered or the connection is
DCP (closing on a failed registration). -/
def conn_new_cmd (c : SMConn) (dying updateOk : Bool) : SMConn × Bool :=
  if dying then bucketDyingStep c
  else
    let c := { c with numEvents := c.numEvents - 1 }
    if 0 ≤ c.numEvents then
      (reset_cmd_handler c, true)
    else
      if 0 < c.avail ∨ c.dcp = true then
        if updateOk then (c, false)
        else (setStateM c CState.closing, true)
      else (c, false)

/-- conn_waiting (statemachine_mcbp.cc lines 185-200): the sev oracle covers
processServerEvents changing the path of the state machine (a queued
disconnect event, which moves the connection to closing); otherwise register
for readability and yield into read_packet_header. -/
def conn_waiting (c : SMConn) (dying sev updateOk : Bool) : SMConn × Bool :=
  if dying ∨ sev then (setStateM c CState.closing, true)
  else if updateOk then (setStateM c CState.read_packet_header, false)
  else (setStateM c CState.closing, true)

/-- conn_read_packet_header (statemachine_mcbp.cc lines 202-228): read from
the network; with a full header buffered go to parse_cmd, with some data but
no full header go back to waiting, and close on EOF, error or allocation
failure (tryReadNetwork sets conn_closing itself on MemoryError). -/
def conn_read_packet_header (c : SMConn) (dying sev : Bool) (r : RecvO) :
    SMConn × Bool :=
  if dying ∨ sev then (setStateM c CState.closing, true)
  else
    match r with
    | RecvO.blocked => (setStateM c CState.waiting, true)
    | RecvO.data n =>
        let c := { c with avail := c.avail + n }
        if 24 ≤ c.avail then (setStateM c CState.parse_cmd, true)
        else (setStateM c CState.waiting, true)
    | RecvO.closed => (setStateM c CState.closing, true)
    | RecvO.sockerr => (setStateM c CState.closing, true)
    | RecvO.memerr => (setStateM c CState.closing, true)

/-- Modelled from the spec: try_read_mcbp_command (mcbp_executors.cc, not in
this tree) validates the buffered header and, per spec section 4.1, decides
whether the body is already buffered (go execute) or more reads are needed
(go read_packet_body). -/
def try_read_mcbp_command (c : SMConn) : SMConn :=
  if isPacketAvailable c then setStateM c CState.execute
  else setStateM c CState.read_packet_body

/-- conn_parse_cmd (statemachine_mcbp.cc lines 230-233). -/
def conn_parse_cmd (c : SMConn) : SMConn × Bool :=
  let c := try_read_mcbp_command c
  (c, !c.ewouldblock)

/-- conn_read_packet_body (statemachine_mcbp.cc lines 332-393): none models
the logic_error thrown when the packet is already complete; otherwise read
more body bytes, move to execute once the frame is complete, close on EOF or
a hard error, and on EAGAIN re-register for readability and yield. -/
def conn_read_packet_body (c : SMConn) (dying : Bool) (r : RecvO)
    (updateOk : Bool) : Option (SMConn × Bool) :=
  if dying then some (bucketDyingStep c)
  else if isPacketAvailable c then none
  else
    match r with
    | RecvO.data n =>
        if n = 0 then some (setStateM c CState.closing, true)
        else
          let c := { c with avail := c.avail + n }
          if isPacketAvailable c then some (setStateM c CState.execute, true)
          else some (c, true)
    | RecvO.closed => some (setStateM c CState.closing, true)
    | RecvO.blocked =>
        if updateOk then some (c, false)
        else some (setStateM c CState.closing, true)
    | RecvO.sockerr => some (setStateM c CState.closing, true)
    | RecvO.memerr => some (setStateM c CState.closing, true)

/-- conn_execute (statemachine_mcbp.cc lines 290-330): none models the
logic_error thrown when the packet is not completely in memory.  The executor
outcome e abstracts mcbp_execute_packet; on EWOULDBLOCK the connection
unregisters and yields without consuming the frame, otherwise the executed
frame is consumed and the machine continues.  The third component counts the
command body executed by this callback. -/
def conn_execute (c : SMConn) (dying : Bool) (e : ExecO) :
    Option (SMConn × Bool × Nat) :=
  if dying then some (setStateM c CState.closing, true, 0)
  else if !isPacketAvailable c then none
  else
    let c := { c with ewouldblock := false }
    match e with
    | ExecO.ewouldblock =>
        some ({ c with ewouldblock := true, registered := false }, false, 1)
    | ExecO.toNewCmd =>
        match consumePacket (setStateM c CState.new_cmd) with
        | none => none
        | some c => some (c, true, 1)
    | ExecO.toSendData =>
        match
          consumePacket
            { setStateM c CState.send_data with write_and_go := CState.new_cmd }
        with
        | none => none
        | some c => some (c, true, 1)
    | ExecO.toClosing =>
        match consumePacket (setStateM c CState.closing) with
        | none => none
        | some c => some (c, true, 1)

/-- conn_send_data (statemachine_mcbp.cc lines 395-427): on Complete release
temporary allocations and reserved items and move to write_and_go; Incomplete
retries; HardError has had the state forced to closing by transmit; SoftError
yields.  The trailing is_bucket_dying check may still divert to closing. -/
def conn_send_data (c : SMConn) (tr : TransmitResult) (dying : Bool) :
    SMConn × Bool :=
  let r :=
    match tr with
    | TransmitResult.Complete =>
        let c :=
          { c with
            tempAllocCount := 0
            released := c.released ++ c.reservedItems
            reservedItems := [] }
        (setStateM c c.write_and_go, true)
    | TransmitResult.Incomplete => (c, true)
    | TransmitResult.HardError => (setStateM c CState.closing, true)
    | TransmitResult.SoftError => (c, false)
  if dying then (setStateM r.1 CState.closing, true) else r

/-- conn_ship_log (statemachine_mcbp.cc lines 132-183): on a read event or
buffered input, route the input through the parse path (or go read the rest
of a header) and refill numEvents to max_reqs_per_event; on a write event,
spend one numEvents unit shipping DCP messages (shipEwb tells whether
ship_mcbp_dcp_log parked with EWOULDBLOCK, which drops the write mask);
finally re-register, closing the connection when that fails. -/
def conn_ship_log (c : SMConn) (dying shipEwb updateOk : Bool) :
    SMConn × Bool :=
  if dying then bucketDyingStep c
  else if !c.socketOpen then (c, false)
  else
    let r :=
      if c.evRead = true ∨ 0 < c.avail then
        let c :=
          if 24 ≤ c.avail then try_read_mcbp_command c
          else setStateM c CState.read_packet_header
        ({ c with numEvents := c.max_reqs_per_event }, true)
      else if c.evWrite then
        let c := { c with numEvents := c.numEvents - 1 }
        if 0 ≤ c.numEvents then
          let c := { c with ewouldblock := false }
          if shipEwb then ({ c with ewouldblock := true }, false)
          else (c, true)
        else (c, false)
      else (c, false)
    if updateOk then r else (setStateM r.1 CState.closing, r.2)

/-- Modelled from the spec: conn_cleanup_engine_allocations (not in this
tree) releases the engine-side per-connection state held for the current
command, that is the temporary allocations and the reserved items (spec
sections 3 and 4.1: reservedItems and temp_alloc are released together). -/
def conn_cleanup_engine_allocations (c : SMConn) : SMConn :=
  { c with
    tempAllocCount := 0
    released := c.released ++ c.reservedItems
    reservedItems := [] }

/-- conn_closing (statemachine_mcbp.cc lines 474-492): unregister from the
reactor, close the socket, release engine allocations, then park in
pending_close when the refcount is above one or an EWOULDBLOCK is
outstanding, else go straight to immediate_close. -/
def conn_closing (c : SMConn) : SMConn × Bool :=
  let c := { c with registered := false, socketOpen := false }
  let c := conn_cleanup_engine_allocations c
  if 1 < c.refcount ∨ c.ewouldblock = true then
    (setStateM c CState.pending_close, true)
  else
    (setStateM c CState.immediate_close, true)

/-- conn_pending_close (statemachine_mcbp.cc lines 429-448): none models the
logic_error thrown when the socket is still open; fire ON_DISCONNECT, then
stay parked while the refcount is above one and move to immediate_close
otherwise. -/
def conn_pending_close (c : SMConn) : Option (SMConn × Bool) :=
  if c.socketOpen then none
  else
    let c := { c with disconnectNotices := c.disconnectNotices + 1 }
    if 1 < c.refcount then some (c, false)
    else some (setStateM c CState.immediate_close, true)

/-- conn_immediate_close (statemachine_mcbp.cc lines 450-472) followed by
conn_close (connections.cc lines 259-288): none models the logic_error paths
(socket still open, state not immediate_close, no owning thread); otherwise
fire ON_DISCONNECT, dissociate the bucket and clean the connection up,
dropping the thread and ending in the destroyed sentinel state. -/
def conn_immediate_close (c : SMConn) : Option (SMConn × Bool) :=
  if c.socketOpen then none
  else
    let c := { c with disconnectNotices := c.disconnectNotices + 1 }
    if c.state ≠ CState.immediate_close then none
    else if !c.hasThread then none
    else
      some
        ({ c with
            hasThread := false
            state := CState.destroyed
            frames := []
            avail := 0
            dcp := false }, false)

/-- Oracle consumed by one state-machine callback: the verdict of
is_bucket_dying, whether processServerEvents diverted the state machine, the
success of updateEvent, the outcome of the socket receive, of the executor
and of transmit, and whether ship_mcbp_dcp_log parked with EWOULDBLOCK. -/
structure Oracle where
  dying : Bool := false
  sev : Bool := false
  updateOk : Bool := true
  recv : RecvO := RecvO.blocked
  execO : ExecO := ExecO.toSendData
  tr : TransmitResult := TransmitResult.Complete
  shipEwb : Bool := false
  deriving Repr

/-- One reactor callback of McbpStateMachine::execute: dispatch on the
current state to the matching conn_* function.  The result is the new
connection, the continue flag returned by the callback, and the number of
command bodies executed (1 only for conn_execute); none models a thrown
logic_error. -/
def step (c : SMConn) (o : Oracle) : Option (SMConn × Bool × Nat) :=
  match c.state with
  | CState.new_cmd =>
      let r := conn_new_cmd c o.dying o.updateOk
      some (r.1, r.2, 0)
  | CState.waiting =>
      let r := conn_waiting c o.dying o.sev o.updateOk
      some (r.1, r.2, 0)
  | CState.read_packet_header =>
      let r := conn_read_packet_header c o.dying o.sev o.recv
      some (r.1, r.2, 0)
  | CState.parse_cmd =>
      let r := conn_parse_cmd c
      some (r.1, r.2, 0)
  | CState.read_packet_body =>
      match conn_read_packet_body c o.dying o.recv o.updateOk with
      | none => none
      | some r => some (r.1, r.2, 0)
  | CState.execute => conn_execute c o.dying o.execO
  | CState.send_data =>
      let r := conn_send_data c o.tr o.dying
      some (r.1, r.2, 0)
  | CState.ship_log =>
      let r := conn_ship_log c o.dying o.shipEwb o.updateOk
      some (r.1, r.2, 0)
  | CState.closing =>
      let r := conn_closing c
      some (r.1, r.2, 0)
  | CState.pending_close =>
      match conn_pending_close c with
      | none => none
      | some r => some (r.1, r.2, 0)
  | CState.immediate_close =>
      match conn_immediate_close c with
      | none => none
      | some r => some (r.1, r.2, 0)
  | CState.destroyed => some (c, false, 0)

/-- McbpConnection::runStateMachinery: run callbacks while they return true,
consuming one oracle per callback, and count the command bodies executed.
The run ends at the first yield (continue = false), on a thrown logic_error,
or when the oracle list is exhausted. -/
def runLoop : SMConn → List Oracle → SMConn × Nat
  | c, [] => (c, 0)
  | c, o :: os =>
      match step c o with
      | none => (c, 0)
      | some (c', cont, d) =>
          if cont then
            let r := runLoop c' os
            (r.1, d + r.2)
          else (c', d)

/-- Modelled from the spec: event_handler and the pending-io drain (not in
this tree) run when the reactor wakes a connection; per spec section 4.1 the
numEvents budget is refilled to max_reqs_per_event for the fresh timeslice
(without a refill an exhausted counter would yield forever and the connection
could never make progress), the triggering event mask is recorded, and the
state machinery runs until it yields. -/
def runEventLoop (c : SMConn) (evRead evWrite : Bool) (os : List Oracle) :
    SMConn × Nat :=
  runLoop
    { c with
      numEvents := c.max_reqs_per_event
      evRead := evRead
      evWrite := evWrite } os

-- ===========================================================================
-- Buffer-loan cluster (daemon/connections.cc)
-- ===========================================================================

/-- Result of a buffer loan attempt (connections.cc lines 41-45). -/
inductive BufferLoan where
  | Existing
  | Loaned
  | Allocated
  deriving DecidableEq, Repr

/-- Connection and worker-thread buffer slots as touched by
conn_loan_buffers and conn_return_buffers (connections.cc).  A Pipe is
modelled by its readable size rsize, so some 0 is a present-and-empty Pipe
and none an absent slot; a freshly allocated Pipe is empty. -/
structure BufState where
  threadRead : Option Nat
  threadWrite : Option Nat
  connRead : Option Nat
  connWrite : Option Nat
  dcp : Bool
  hasThread : Bool
  deriving DecidableEq, Repr

/-- maybe_return_single_buffer (connections.cc lines 506-518): only an empty
connection Pipe is disposed of; it is released when the thread already holds
a pool Pipe and swapped into the pool otherwise.  Returns the new
(thread slot, connection slot) pair. -/
def maybe_return_single_buffer (thread_buf conn_buf : Option Nat) :
    Option Nat × Option Nat :=
  match conn_buf with
  | some n =>
      if n = 0 then
        match thread_buf with
        | some t => (some t, none)
        | none => (some n, none)
      else (thread_buf, some n)
  | none => (thread_buf, none)

/-- conn_return_buffers (connections.cc lines 368-388): nothing happens for a
connection without a thread or for a DCP connection; otherwise both slots go
through maybe_return_single_buffer. -/
def conn_return_buffers (b : BufState) : BufState :=
  if !b.hasThread then b
  else if b.dcp then b
  else
    let r := maybe_return_single_buffer b.threadRead b.connRead
    let w := maybe_return_single_buffer b.threadWrite b.connWrite
    { b with
      threadRead := r.1
      connRead := r.2
      threadWrite := w.1
      connWrite := w.2 }

/-- conn_cleanup (connections.cc lines 238-257), restricted to its buffer
effects: clear both Pipes, clear the DCP flag (so conn_return_buffers will
actually free the buffers, per the comment in the source), return the
buffers, then disassociate the thread. -/
def conn_cleanup (b : BufState) : BufState :=
  let b :=
    { b with
      connRead := b.connRead.map (fun _ => 0)
      connWrite := b.connWrite.map (fun _ => 0)
      dcp := false }
  { conn_return_buffers b with hasThread := false }

/-- loan_single_buffer (connections.cc lines 473-504) for one slot: keep an
existing buffer, else loan the thread buffer, else allocate a fresh (empty)
Pipe; when allocation fails the connection state is set to closing and the
loan is reported as Existing.  Returns (loan, thread slot, connection slot,
connection state). -/
def loan_single_buffer (thread_buf conn_buf : Option Nat) (allocOk : Bool)
    (st : CState) : BufferLoan × Option Nat × Option Nat × CState :=
  match conn_buf with
  | some n => (BufferLoan.Existing, thread_buf, some n, st)
  | none =>
      match thread_buf with
      | some t => (BufferLoan.Loaned, none, some t, st)
      | none =>
          if allocOk then (BufferLoan.Allocated, none, some 0, st)
          else (BufferLoan.Existing, none, none, CState.closing)

-- ===========================================================================
-- Cookie / response cluster (daemon/cookie.cc)
-- ===========================================================================

/-- The response statuses the embedded paths distinguish, a subset of
cb::mcbp::Status; isStatusSuccess holds exactly for Success in this
subset. -/
inductive StatusR where
  | Success
  | NotMyVbucket
  | Einval
  | KeyEnoent
  | Etmpfail
  deriving DecidableEq, Repr

/-- cb::mcbp::isStatusSuccess restricted to the statuses above. -/
def isStatusSuccess (s : StatusR) : Bool :=
  decide (s = StatusR.Success)

/-- The two datatypes Cookie::sendResponse accepts (cookie.cc lines
217-220). -/
inductive DatatypeR where
  | Raw
  | JSON
  deriving DecidableEq, Repr

/-- cJSON string rendering of one field value (unformatted, no escaping
needed for the plain strings considered here). -/
def jsonString (s : String) : String :=
  "\"" ++ s ++ "\""

/-- Cookie::getErrorJson (cookie.cc lines 56-73): empty when neither an error
context nor an event id is set; otherwise the unformatted cJSON object with
an inner error object holding context and/or ref. -/
def getErrorJson (error_context event_id : String) : String :=
  if error_context = "" ∧ event_id = "" then ""
  else
    let fields :=
      (if error_context = "" then []
       else ["\"context\":" ++ jsonString error_context]) ++
      (if event_id = "" then []
       else ["\"ref\":" ++ jsonString event_id])
    "\x7b\"error\":\x7b" ++ String.intercalate "," fields ++ "\x7d\x7d"

/-- The Cookie together with the Connection fields Cookie::sendResponse
touches: the error metadata, the XERROR feature flag, whether the write Pipe
is empty, the machine state and write_and_go, and the send bookkeeping
(io-vector entries and bytes placed in the write Pipe). -/
structure CookieSR where
  error_context : String
  event_id : String
  xerror : Bool
  writeEmpty : Bool
  state : CState
  write_and_go : CState
  iovCount : Nat
  writeBytes : Nat
  cas : Nat
  deriving DecidableEq, Repr

/-- Response content assembled by Cookie::sendResponse: the header fields and
the three body sections.  The datatype is the value computed in the function
body; the wire header byte additionally goes through
Connection::getEnabledDatatypes inside mcbp_add_header. -/
structure ResponseR where
  status : StatusR
  extras : String
  key : String
  value : String
  datatype : DatatypeR
  deriving DecidableEq, Repr

/-- Observable outcome of the full Cookie::sendResponse overload: thrown is
the std::logic_error raised on a non-empty write buffer, nmvb the
NotMyVbucket delegation to the status-only path (mcbp_write_packet), and
resp a fully assembled response. -/
inductive SendOut where
  | thrown
  | nmvb
  | resp (r : ResponseR)
  deriving DecidableEq, Repr

/-- Cookie::sendResponse full overload (cookie.cc lines 203-274): throw if
the write Pipe is not empty (before anything is produced); short-circuit
NotMyVbucket to the status-only path; on success keep the caller's sections
and store the CAS; on any other error replace extras and key by nothing and
the value by the error JSON (datatype JSON when non-empty, Raw otherwise);
then add the 24-byte header and copy extras, key and value into the write
Pipe, appending one io-vector entry for the header and one per non-empty
section, and finish in send_data with write_and_go = new_cmd. -/
def sendResponseFull (c : CookieSR) (status : StatusR)
    (extras key value : String) (datatype : DatatypeR) (cas : Nat) :
    CookieSR × SendOut :=
  if !c.writeEmpty then (c, SendOut.thrown)
  else if status = StatusR.NotMyVbucket then (c, SendOut.nmvb)
  else
    let error_json := getErrorJson c.error_context c.event_id
    let r :=
      if isStatusSuccess status then
        ({ c with cas := cas }, extras, key, value, datatype)
      else
        (c, "", "", error_json,
          if error_json = "" then DatatypeR.Raw else DatatypeR.JSON)
    match r with
    | (c, extras, key, value, datatype) =>
        let c :=
          { c with
            iovCount :=
              c.iovCount + 1 + (if extras = "" then 0 else 1) +
                (if key = "" then 0 else 1) + (if value = "" then 0 else 1)
            writeBytes :=
              c.writeBytes + 24 + extras.length + key.length + value.length
            writeEmpty := false
            state := CState.send_data
            write_and_go := CState.new_cmd }
        (c, SendOut.resp
          { status := status, extras := extras, key := key, value := value,
            datatype := datatype })

-- ===========================================================================
-- DCP deletion cluster (daemon/protocol/mcbp/dcp_deletion.cc, connection.h)
-- ===========================================================================

/-- The two document namespaces distinguished by the connection
(connection.h lines 362-368 and 497-505). -/
inductive DocNamespace where
  | DefaultCollection
  | Collections
  deriving DecidableEq, Repr

/-- Connection::getDocNamespaceForDcpMessage (connection.h lines 497-505):
Collections exactly when the DCP channel is collection aware and the
producer sent a non-zero collection length. -/
def getDocNamespaceForDcpMessage (dcpCollectionAware : Bool)
    (collectionLength : Nat) : DocNamespace :=
  if dcpCollectionAware = true ∧ collectionLength ≠ 0 then
    DocNamespace.Collections
  else DocNamespace.DefaultCollection

/-- Modelled from the spec: the wire layout of a DCP deletion request
(protocol_binary_request_dcp_deletion, declared in a header outside this
tree).  The version-1 frame is the 24-byte header plus 18 extras bytes
(by_seqno 8, rev_seqno 8, nmeta 2); a collection-aware channel carries one
extra byte, the collection_len field, so its header length is one larger
(spec section 6, DCP framing). -/
def dcp_deletion_getHeaderLength (dcpCollectionAware : Bool) : Nat :=
  24 + 18 + (if dcpCollectionAware then 1 else 0)

/-- The key extraction performed by dcp_deletion_executor (dcp_deletion.cc
lines 37-45): the key starts at the body offset, which is the header length
for the negotiated collection awareness, and runs for keylen bytes. -/
def dcp_deletion_key (dcpCollectionAware : Bool) (frame : List Nat)
    (nkey : Nat) : List Nat :=
  (frame.drop (dcp_deletion_getHeaderLength dcpCollectionAware)).take nkey

/-- The engine error codes the embedded DCP producer path distinguishes. -/
inductive EngineErr where
  | Success
  | Failed
  | E2big
  | Disconnect
  | Ewouldblock
  deriving DecidableEq, Repr

/-- The Connection fields touched by dcp_message_deletion: the
collection-aware flag, the reserved-item list, the number of item_release
calls the engine has received, the space available in the write Pipe for the
produce call, and the io-vector length. -/
structure DcpProdConn where
  dcpCollectionAware : Bool
  reservedItems : List Nat
  releaseCalls : Nat
  writeCapacity : Nat
  iovCount : Nat
  deriving DecidableEq, Repr

/-- Connection::reserveItem (connection.h lines 702-709): push the item onto
reservedItems, reporting false when the push fails with bad_alloc (the
allocOk oracle). -/
def reserveItem (c : DcpProdConn) (item : Nat) (allocOk : Bool) :
    DcpProdConn × Bool :=
  if allocOk then
    ({ c with reservedItems := c.reservedItems ++ [item] }, true)
  else (c, false)

/-- One engine item_release call (ENGINE_HANDLE_V1::release), as performed by
the cb::unique_item_ptr deleter. -/
def item_release (c : DcpProdConn) : DcpProdConn :=
  { c with releaseCalls := c.releaseCalls + 1 }

/-- dcp_message_deletion (dcp_deletion.cc lines 101-193): the item is guarded
by a unique_item_ptr, so a failed bucket_get_item_info or a failed
reserveItem releases it exactly once and returns ENGINE_FAILED; after a
successful reservation the guard is released (the item stays reserved) and
the frame is produced into the write Pipe, returning E2big when the Pipe
cannot hold the packet plus the meta section and Success otherwise (adding
io-vector entries for header, key, optional value and optional meta). -/
def dcp_message_deletion (c : DcpProdConn) (item : Nat)
    (getItemInfoOk reserveAllocOk : Bool) (nbytes nmeta : Nat) :
    DcpProdConn × EngineErr :=
  if !getItemInfoOk then (item_release c, EngineErr.Failed)
  else
    match reserveItem c item reserveAllocOk with
    | (c, false) => (item_release c, EngineErr.Failed)
    | (c, true) =>
        let packetlen := dcp_deletion_getHeaderLength c.dcpCollectionAware
        if c.writeCapacity < packetlen + nmeta then (c, EngineErr.E2big)
        else
          let c :=
            { c with
              iovCount :=
                c.iovCount + 2 + (if nbytes = 0 then 0 else 1) +
                  (if nmeta = 0 then 0 else 1) }
          (c, EngineErr.Success)

-- ===========================================================================
-- Auxiliary definitions and concrete configurations used by the theorems
-- ===========================================================================

/-- Potential of a state for the yield-bound argument: 1 for the states that
lie between the numEvents decrement in conn_new_cmd and the completion of the
command body in conn_execute (a command in flight whose decrement has already
been paid, or that was paid in an earlier timeslice), 0 elsewhere. -/
def phi : CState → Nat
  | CState.waiting => 1
  | CState.read_packet_header => 1
  | CState.parse_cmd => 1
  | CState.read_packet_body => 1
  | CState.execute => 1
  | _ => 0

/-- A plain non-DCP, non-SSL connection with max_reqs_per_event = 1, two
24-byte frames on the wire of which 10 bytes are buffered so far. -/
def c1start : SMConn where
  state := CState.new_cmd
  write_and_go := CState.new_cmd
  numEvents := 0
  max_reqs_per_event := 1
  dcp := false
  ssl := false
  evRead := false
  evWrite := false
  ewouldblock := false
  refcount := 1
  socketOpen := true
  registered := true
  hasThread := true
  frames := [24, 24]
  avail := 10
  reservedItems := []
  released := []
  tempAllocCount := 0
  disconnectNotices := 0

/-- Oracles for the first timeslice of c1start: all defaults (bucket healthy,
event registration succeeds, socket would block). -/
def c1osA : List Oracle := [{}, {}]

/-- Oracles for the second timeslice of c1start: the socket delivers the
remaining 38 bytes (completing both frames), every executor responds and
every transmit completes. -/
def c1osB : List Oracle :=
  [{ recv := RecvO.data 38 }, {}, {}, {}, {}, {}, {}, {}, {}]

/-- A connection reaching conn_closing with refcount 1 but an outstanding
EWOULDBLOCK. -/
def c2cx : SMConn where
  state := CState.closing
  write_and_go := CState.new_cmd
  numEvents := 0
  max_reqs_per_event := 20
  dcp := false
  ssl := false
  evRead := false
  evWrite := false
  ewouldblock := true
  refcount := 1
  socketOpen := true
  registered := true
  hasThread := true
  frames := []
  avail := 0
  reservedItems := []
  released := []
  tempAllocCount := 0
  disconnectNotices := 0

/-- A worker/connection buffer configuration at unhook time: both connection
Pipes empty, the pool holding a write Pipe but no read Pipe. -/
def c4W : BufState where
  threadRead := none
  threadWrite := some 5
  connRead := some 0
  connWrite := some 0
  dcp := false
  hasThread := true

/-- A Cookie carrying an error context on a connection that did NOT negotiate
XERROR, about to send an error response into an empty write buffer. -/
def c5cx : CookieSR where
  error_context := "foo"
  event_id := ""
  xerror := false
  writeEmpty := true
  state := CState.execute
  write_and_go := CState.new_cmd
  iovCount := 0
  writeBytes := 0
  cas := 0

/-- A Cookie carrying both an error context and an event id, XERROR
negotiated, empty write buffer. -/
def c5W : CookieSR where
  error_context := "ctx"
  event_id := "id"
  xerror := true
  writeEmpty := true
  state := CState.execute
  write_and_go := CState.new_cmd
  iovCount := 0
  writeBytes := 0
  cas := 0

/-- A connection parked in pending_close with its socket closed and exactly
the worker reference left. -/
def c7W : SMConn where
  state := CState.pending_close
  write_and_go := CState.new_cmd
  numEvents := 0
  max_reqs_per_event := 20
  dcp := true
  ssl := false
  evRead := false
  evWrite := false
  ewouldblock := false
  refcount := 1
  socketOpen := false
  registered := false
  hasThread := true
  frames := []
  avail := 0
  reservedItems := []
  released := []
  tempAllocCount := 0
  disconnectNotices := 0

/-- A DCP producer connection with one already-reserved item and ample write
space. -/
def c9W : DcpProdConn where
  dcpCollectionAware := false
  reservedItems := [3]
  releaseCalls := 0
  writeCapacity := 100
  iovCount := 0

/-- A Cookie whose connection write Pipe is NOT empty. -/
def c10W : CookieSR where
  error_context := ""
  event_id := ""
  xerror := true
  writeEmpty := false
  state := CState.execute
  write_and_go := CState.new_cmd
  iovCount := 2
  writeBytes := 40
  cas := 0

-- ===========================================================================
-- Theorems
-- ===========================================================================

/-- C8: when the connection has no Pipe in the slot, the worker pool is empty
and allocating a new Pipe fails, loan_single_buffer moves the connection to
the closing state within the same call and reports the loan as Existing (so
no allocation is accounted), leaving both slots empty. -/
theorem c8_loan_failure_closing (st : CState) :
    loan_single_buffer none none false st =
      (BufferLoan.Existing, none, none, CState.closing) := rfl

/-- C4: for a non-DCP connection being unhooked (the unhook path conn_cleanup
has cleared both Pipes, so a present Pipe is empty), conn_return_buffers
moves an empty Pipe into the worker pool when the pool slot is free and drops
it when the pool slot is taken, for both the read and the write slot; a DCP
connection never returns its buffers. -/
theorem c4_return_buffers_policy :
    (∀ b : BufState, b.dcp = true → conn_return_buffers b = b) ∧
    (∀ b : BufState, b.hasThread = true → b.dcp = false →
      ((b.connRead = some 0 → b.threadRead = none →
          (conn_return_buffers b).threadRead = some 0 ∧
          (conn_return_buffers b).connRead = none) ∧
       (∀ t, b.connRead = some 0 → b.threadRead = some t →
          (conn_return_buffers b).threadRead = some t ∧
          (conn_return_buffers b).connRead = none) ∧
       (b.connWrite = some 0 → b.threadWrite = none →
          (conn_return_buffers b).threadWrite = some 0 ∧
          (conn_return_buffers b).connWrite = none) ∧
       (∀ t, b.connWrite = some 0 → b.threadWrite = some t →
          (conn_return_buffers b).threadWrite = some t ∧
          (conn_return_buffers b).connWrite = none))) := by
  constructor
  · intro b hdcp
    simp [conn_return_buffers, hdcp]
  · intro b hthr hdcp
    refine ⟨?_, ?_, ?_, ?_⟩
    · intro hcr htr
      simp [conn_return_buffers, maybe_return_single_buffer, hthr, hdcp, hcr,
        htr]
    · intro t hcr htr
      simp [conn_return_buffers, maybe_return_single_buffer, hthr, hdcp, hcr,
        htr]
    · intro hcw htw
      simp [conn_return_buffers, maybe_return_single_buffer, hthr, hdcp, hcw,
        htw]
    · intro t hcw htw
      simp [conn_return_buffers, maybe_return_single_buffer, hthr, hdcp, hcw,
        htw]

/-- C4 witness: on the concrete configuration c4W, the empty read Pipe moves
into the free pool slot and the empty write Pipe is dropped because the pool
already holds a write Pipe. -/
theorem c4_return_buffers_witness :
    ((conn_return_buffers c4W).threadRead = some 0 ∧
      (conn_return_buffers c4W).connRead = none) ∧
    ((conn_return_buffers c4W).threadWrite = some 5 ∧
      (conn_return_buffers c4W).connWrite = none) :=
  ⟨(c4_return_buffers_policy.2 c4W rfl rfl).1 rfl rfl,
   (c4_return_buffers_policy.2 c4W rfl rfl).2.2.2 5 rfl rfl⟩

/-- C2 counterexample: on the concrete connection c2cx, whose refcount is
exactly 1 but which has an outstanding EWOULDBLOCK, conn_closing transitions
to pending_close even though no Cookie is referenced by the engine
(refcount is not greater than 1), refuting the claimed if-and-only-if. -/
theorem c2_closing_counterexample :
    (conn_closing c2cx).1.state = CState.pending_close ∧
      c2cx.refcount = 1 := by decide

/-- C2 amended: after conn_closing has unregistered from the reactor, closed
the socket and released the engine-side per-connection state, the connection
transitions to pending_close if and only if some Cookie is still referenced
by the engine (refcount above 1) OR an EWOULDBLOCK is outstanding, and to
immediate_close otherwise. -/
theorem c2_closing_amended (c : SMConn) :
    ((conn_closing c).1.state = CState.pending_close ↔
      (1 < c.refcount ∨ c.ewouldblock = true)) ∧
    ((conn_closing c).1.state = CState.immediate_close ↔
      (c.refcount ≤ 1 ∧ c.ewouldblock = false)) ∧
    (conn_closing c).1.registered = false ∧
    (conn_closing c).1.socketOpen = false ∧
    (conn_closing c).1.reservedItems = [] ∧
    (conn_closing c).2 = true := by
  cases hew : c.ewouldblock <;> by_cases h : 1 < c.refcount <;>
    simp [conn_closing, conn_cleanup_engine_allocations, setStateM, h, hew] <;>
    omega

/-- C3: after a transmit result of Complete, conn_send_data leaves
reservedItems empty and the engine has received exactly one item_release per
item previously reserved during the command; after a HardError, transmit has
forced the state to closing and the immediately following conn_closing
callback releases the reserved items the same way. -/
theorem c3_reserved_items_released (c : SMConn) (dying : Bool) :
    ((conn_send_data c TransmitResult.Complete dying).1.reservedItems = [] ∧
      (conn_send_data c TransmitResult.Complete dying).1.released =
        c.released ++ c.reservedItems) ∧
    ((conn_send_data c TransmitResult.HardError dying).1.state =
        CState.closing ∧
      (conn_closing
          (conn_send_data c TransmitResult.HardError dying).1).1.reservedItems =
        [] ∧
      (conn_closing
          (conn_send_data c TransmitResult.HardError dying).1).1.released =
        c.released ++ c.reservedItems) := by
  cases dying <;>
    simp [conn_send_data, conn_closing, conn_cleanup_engine_allocations,
      setStateM] <;>
    split <;> simp <;> split <;> simp

/-- C7: with the socket already closed and at least the worker's own
reference outstanding, conn_pending_close moves the connection from
pending_close to immediate_close exactly when the refcount equals 1; while
the refcount is greater than 1 the connection stays parked (the state is
unchanged and the callback yields), after notifying ON_DISCONNECT. -/
theorem c7_pending_close_refcount (c : SMConn) (h0 : c.state = CState.pending_close)
    (h1 : 1 ≤ c.refcount) (h2 : c.socketOpen = false) :
    ((conn_pending_close c).map (fun r => r.1.state) =
        some CState.immediate_close ↔ c.refcount = 1) ∧
    (1 < c.refcount →
      conn_pending_close c =
        some ({ c with disconnectNotices := c.disconnectNotices + 1 },
          false)) := by
  by_cases h : 1 < c.refcount
  · simp [conn_pending_close, h2, setStateM, h, h0]
    omega
  · simp [conn_pending_close, h2, setStateM, h]
    omega

/-- C7 witness: on the concrete connection c7W (socket closed, refcount
exactly 1) the transition to immediate_close fires. -/
theorem c7_pending_close_witness :
    ((conn_pending_close c7W).map (fun r => r.1.state) =
        some CState.immediate_close ↔ c7W.refcount = 1) ∧
    (1 < c7W.refcount →
      conn_pending_close c7W =
        some ({ c7W with disconnectNotices := c7W.disconnectNotices + 1 },
          false)) :=
  c7_pending_close_refcount c7W rfl (by decide) rfl

/-- C10: the full Cookie::sendResponse overload called with a non-empty
connection write Pipe throws std::logic_error before producing any bytes or
io-vector entries: the outcome is the thrown marker and the connection state
is returned unchanged. -/
theorem c10_send_response_guard (c : CookieSR) (status : StatusR)
    (extras key value : String) (datatype : DatatypeR) (cas : Nat)
    (h : c.writeEmpty = false) :
    sendResponseFull c status extras key value datatype cas =
      (c, SendOut.thrown) := by
  simp [sendResponseFull, h]

/-- C10 witness: on the concrete Cookie c10W (write Pipe not empty) the call
throws and leaves the state untouched. -/
theorem c10_send_response_witness :
    sendResponseFull c10W StatusR.Einval "" "" "" DatatypeR.Raw 0 =
      (c10W, SendOut.thrown) :=
  c10_send_response_guard c10W StatusR.Einval "" "" "" DatatypeR.Raw 0 rfl

/-- The error JSON rendered by Cookie::getErrorJson is empty exactly when the
Cookie carries neither an error context nor an event id. -/
lemma getErrorJson_empty_iff (a b : String) :
    getErrorJson a b = "" ↔ (a = "" ∧ b = "") := by
  unfold getErrorJson
  by_cases h : a = "" ∧ b = ""
  · simp [h]
  · rw [if_neg h]
    constructor
    · intro he
      exfalso
      have hlen := congrArg String.length he
      rw [String.length_append, String.length_append] at hlen
      have hpre : ("\x7b\"error\":\x7b" : String).length = 10 := rfl
      have hsuf : ("\x7d\x7d" : String).length = 2 := rfl
      have hnil : ("" : String).length = 0 := rfl
      rw [hpre, hsuf, hnil] at hlen
      omega
    · intro hab
      exact absurd hab h

/-- C5 counterexample: on the concrete Cookie c5cx, XERROR is NOT enabled and
the status is a non-success status other than not-my-vbucket, yet the
response body is the error JSON built from the error context, not empty —
refuting the second half of the claim (XERROR disabled does not make the
body empty). -/
theorem c5_error_envelope_counterexample :
    c5cx.xerror = false ∧
    (sendResponseFull c5cx StatusR.Einval "" "" "" DatatypeR.Raw 0).2 =
      SendOut.resp
        { status := StatusR.Einval, extras := "", key := "",
          value := "\x7b\"error\":\x7b\"context\":\"foo\"\x7d\x7d",
          datatype := DatatypeR.JSON } := ⟨rfl, rfl⟩

/-- C5 amended: for every response sent through the full
Cookie::sendResponse overload with a non-success status other than
not-my-vbucket (into an empty write buffer), the response value is exactly
the JSON object built by getErrorJson from the Cookie's error-context and
event-id — regardless of whether XERROR was negotiated — with datatype JSON
when that object is non-empty; the body is empty exactly when the Cookie
carries neither an error context nor an event id. -/
theorem c5_error_envelope_amended (c : CookieSR) (status : StatusR)
    (extras key value : String) (datatype : DatatypeR) (cas : Nat)
    (hw : c.writeEmpty = true) (hs : status ≠ StatusR.Success)
    (hn : status ≠ StatusR.NotMyVbucket) :
    (sendResponseFull c status extras key value datatype cas).2 =
      SendOut.resp
        { status := status, extras := "", key := "",
          value := getErrorJson c.error_context c.event_id,
          datatype :=
            if getErrorJson c.error_context c.event_id = "" then DatatypeR.Raw
            else DatatypeR.JSON } ∧
    (getErrorJson c.error_context c.event_id = "" ↔
      (c.error_context = "" ∧ c.event_id = "")) := by
  refine ⟨?_, getErrorJson_empty_iff c.error_context c.event_id⟩
  simp [sendResponseFull, hw, hn, isStatusSuccess, hs]

/-- C5 witness: on the concrete Cookie c5W carrying both a context and an
event id, the response body is the two-field error object. -/
theorem c5_error_envelope_witness :
    (sendResponseFull c5W StatusR.Etmpfail "" "" "" DatatypeR.Raw 0).2 =
      SendOut.resp
        { status := StatusR.Etmpfail, extras := "", key := "",
          value := getErrorJson c5W.error_context c5W.event_id,
          datatype :=
            if getErrorJson c5W.error_context c5W.event_id = "" then
              DatatypeR.Raw
            else DatatypeR.JSON } ∧
    (getErrorJson c5W.error_context c5W.event_id = "" ↔
      (c5W.error_context = "" ∧ c5W.event_id = "")) :=
  c5_error_envelope_amended c5W StatusR.Etmpfail "" "" "" DatatypeR.Raw 0 rfl
    (by decide) (by decide)

/-- C6: on a DCP deletion frame, the collection-length field is part of the
frame header exactly when collection-aware was negotiated (the body offset
grows by the one collection_len byte), and the decoded key's namespace is
Collections exactly when the channel is collection aware and the
collection-length byte is non-zero, the default collection namespace
otherwise; decoding the collection-aware frame of spec scenario S4 (key
section 0x09 "user") yields those key bytes starting right after the
collection_len byte. -/
theorem c6_dcp_collection_namespace :
    (∀ (aware : Bool) (len : Nat),
        getDocNamespaceForDcpMessage aware len = DocNamespace.Collections ↔
          (aware = true ∧ 0 < len)) ∧
    (∀ len, getDocNamespaceForDcpMessage false len =
        DocNamespace.DefaultCollection) ∧
    (getDocNamespaceForDcpMessage true 0 = DocNamespace.DefaultCollection) ∧
    (dcp_deletion_getHeaderLength true = dcp_deletion_getHeaderLength false + 1) ∧
    (dcp_deletion_key true (List.replicate 43 0 ++ [9, 117, 115, 101, 114]) 5 =
      [9, 117, 115, 101, 114]) := by
  refine ⟨?_, ?_, by decide, by decide, by decide⟩
  · intro aware len
    unfold getDocNamespaceForDcpMessage
    by_cases h : aware = true ∧ len ≠ 0
    · rw [if_pos h]
      simp only [true_iff]
      exact ⟨h.1, Nat.pos_of_ne_zero h.2⟩
    · rw [if_neg h]
      simp only [iff_false, reduceCtorEq, false_iff]
      intro hc
      exact h ⟨hc.1, Nat.pos_iff_ne_zero.mp hc.2⟩
  · intro len
    unfold getDocNamespaceForDcpMessage
    simp

/-- C9: in dcp_message_deletion, if item-info retrieval fails or reserving
the item fails, the item is released back to the engine exactly once (one
item_release call), nothing is added to reservedItems and the function
returns ENGINE_FAILED; on a successful reservation no release happens, the
item stays on reservedItems (until the batch release after transmit), and
the result is Success or E2big, never Failed. -/
theorem c9_dcp_deletion_release (c : DcpProdConn) (item : Nat)
    (infoOk allocOk : Bool) (nbytes nmeta : Nat) :
    ((infoOk = false ∨ allocOk = false) →
      ((dcp_message_deletion c item infoOk allocOk nbytes nmeta).2 =
          EngineErr.Failed ∧
        (dcp_message_deletion c item infoOk allocOk nbytes nmeta).1.releaseCalls =
          c.releaseCalls + 1 ∧
        (dcp_message_deletion c item infoOk allocOk nbytes nmeta).1.reservedItems =
          c.reservedItems)) ∧
    (infoOk = true → allocOk = true →
      ((dcp_message_deletion c item infoOk allocOk nbytes nmeta).1.releaseCalls =
          c.releaseCalls ∧
        (dcp_message_deletion c item infoOk allocOk nbytes nmeta).1.reservedItems =
          c.reservedItems ++ [item] ∧
        ((dcp_message_deletion c item infoOk allocOk nbytes nmeta).2 =
            EngineErr.Success ∨
          (dcp_message_deletion c item infoOk allocOk nbytes nmeta).2 =
            EngineErr.E2big))) := by
  cases infoOk <;> cases allocOk <;>
    simp [dcp_message_deletion, reserveItem, item_release] <;>
    split <;> simp

/-- C9 witness: a failed item-info retrieval on the concrete connection c9W
releases the item once, leaves reservedItems unchanged and returns
ENGINE_FAILED. -/
theorem c9_dcp_deletion_witness :
    (dcp_message_deletion c9W 7 false true 0 0).2 = EngineErr.Failed ∧
    (dcp_message_deletion c9W 7 false true 0 0).1.releaseCalls =
      c9W.releaseCalls + 1 ∧
    (dcp_message_deletion c9W 7 false true 0 0).1.reservedItems =
      c9W.reservedItems :=
  (c9_dcp_deletion_release c9W 7 false true 0 0).1 (Or.inl rfl)


/-- Every state-machine callback of a non-DCP connection (whose write_and_go
is the normal new_cmd) preserves these facts and respects the yield budget:
the number of command bodies it executes plus the remaining budget plus the
potential of the reached state never exceeds the budget plus potential it
started from; on a yield, the bodies executed are within the incoming
budget-plus-potential. -/
lemma step_bound {c : SMConn} {o : Oracle} {r : SMConn × Bool × Nat}
    (h1 : c.dcp = false) (h2 : c.state ≠ CState.ship_log)
    (h3 : c.write_and_go = CState.new_cmd)
    (hs : step c o = some r) :
    r.1.dcp = false ∧ r.1.state ≠ CState.ship_log ∧
      r.1.write_and_go = CState.new_cmd ∧
      (r.2.1 = true → r.2.2 + r.1.numEvents.toNat + phi r.1.state ≤
        c.numEvents.toNat + phi c.state) ∧
      (r.2.1 = false → r.2.2 ≤ c.numEvents.toNat + phi c.state) := by
  obtain ⟨dying, sev, updateOk, recv, execO, tr, shipEwb⟩ := o
  cases hst : c.state with
  | new_cmd =>
      simp only [step, hst] at hs
      obtain rfl := Option.some.inj hs
      cases dying <;> cases updateOk <;>
        simp [conn_new_cmd, bucketDyingStep, reset_cmd_handler, setStateM,
          h1, h3, phi, hst] <;>
        split_ifs <;>
        simp [phi] <;>
        omega
  | waiting =>
      simp only [step, hst] at hs
      obtain rfl := Option.some.inj hs
      cases dying <;> cases sev <;> cases updateOk <;>
        simp [conn_waiting, setStateM, h1, h3, phi, hst] <;>
        omega
  | read_packet_header =>
      simp only [step, hst] at hs
      obtain rfl := Option.some.inj hs
      cases dying <;> cases sev <;> cases recv <;>
        simp [conn_read_packet_header, setStateM, h1, h3, phi, hst] <;>
        split_ifs <;>
        simp [phi] <;>
        omega
  | parse_cmd =>
      simp only [step, hst] at hs
      obtain rfl := Option.some.inj hs
      cases he : c.ewouldblock <;>
        simp [conn_parse_cmd, try_read_mcbp_command, setStateM, h1, h3, phi,
          hst, he] <;>
        split_ifs <;>
        simp [phi] <;>
        omega
  | read_packet_body =>
      simp only [step, hst] at hs
      cases hb : conn_read_packet_body c dying recv updateOk with
      | none => rw [hb] at hs; simp at hs
      | some p =>
          rw [hb] at hs
          dsimp only at hs
          obtain rfl := Option.some.inj hs
          revert hb
          unfold conn_read_packet_body bucketDyingStep
          cases recv <;>
            (try dsimp only) <;>
            (try split_ifs) <;>
            intro hb <;>
            (try split_ifs at hb) <;>
            first
              | exact hb.elim
              | exact Option.noConfusion hb
              | (obtain rfl := (Option.some.inj hb).symm
                 simp [setStateM, h1, h3, phi, hst] <;> try omega)
              | (intros
                 subst_vars
                 simp_all [setStateM, h1, h3, phi, hst, isPacketAvailable]
                 (try subst_vars)
                 (try simp_all [phi])
                 try omega)
  | execute =>
      simp only [step, hst] at hs
      cases hb : conn_execute c dying execO with
      | none => rw [hb] at hs; simp at hs
      | some p =>
          rw [hb] at hs
          obtain rfl := Option.some.inj hs
          revert hb
          unfold conn_execute consumePacket
          (try dsimp only)
          cases hfr : c.frames <;>
            cases execO <;>
            (try dsimp only) <;>
            (try split_ifs) <;>
            intro hb <;>
            (try split_ifs at hb) <;>
            first
              | exact hb.elim
              | exact Option.noConfusion hb
              | (obtain rfl := (Option.some.inj hb).symm
                 simp [setStateM, h1, h3, phi, hst, hfr] <;> try omega)
              | (intros
                 subst_vars
                 simp_all [setStateM, h1, h3, phi, hst, hfr, isPacketAvailable]
                 (try subst_vars)
                 (try simp_all [phi])
                 try omega)
  | send_data =>
      simp only [step, hst] at hs
      obtain rfl := Option.some.inj hs
      cases dying <;> cases tr <;>
        simp [conn_send_data, setStateM, h1, h3, phi, hst] <;>
        omega
  | ship_log => exact absurd hst h2
  | closing =>
      simp only [step, hst] at hs
      obtain rfl := Option.some.inj hs
      simp [conn_closing, conn_cleanup_engine_allocations, setStateM, h1, h3,
        phi, hst] <;>
      split_ifs <;>
      simp [phi] <;>
      omega
  | pending_close =>
      simp only [step, hst] at hs
      cases hb : conn_pending_close c with
      | none => rw [hb] at hs; simp at hs
      | some p =>
          rw [hb] at hs
          dsimp only at hs
          obtain rfl := Option.some.inj hs
          revert hb
          unfold conn_pending_close
          (try dsimp only) <;>
            (try split_ifs) <;>
            intro hb <;>
            (try split_ifs at hb) <;>
            first
              | exact hb.elim
              | exact Option.noConfusion hb
              | (obtain rfl := (Option.some.inj hb).symm
                 simp [setStateM, h1, h3, phi, hst] <;> try omega)
              | (intros
                 subst_vars
                 simp_all [setStateM, h1, h3, phi, hst, isPacketAvailable]
                 (try subst_vars)
                 (try simp_all [phi])
                 try omega)
  | immediate_close =>
      simp only [step, hst] at hs
      cases hb : conn_immediate_close c with
      | none => rw [hb] at hs; simp at hs
      | some p =>
          rw [hb] at hs
          dsimp only at hs
          obtain rfl := Option.some.inj hs
          revert hb
          unfold conn_immediate_close
          (try dsimp only) <;>
            (try split_ifs) <;>
            intro hb <;>
            (try split_ifs at hb) <;>
            first
              | exact hb.elim
              | exact Option.noConfusion hb
              | (obtain rfl := (Option.some.inj hb).symm
                 simp [setStateM, h1, h3, phi, hst] <;> try omega)
              | (intros
                 subst_vars
                 simp_all [setStateM, h1, h3, phi, hst, isPacketAvailable]
                 (try subst_vars)
                 (try simp_all [phi])
                 try omega)
  | destroyed =>
      simp only [step, hst] at hs
      obtain rfl := Option.some.inj hs
      simp [h1, h3, phi, hst]

/-- The potential of a state is at most one. -/
lemma phi_le_one (s : CState) : phi s ≤ 1 := by
  cases s <;> simp [phi]

/-- Over any oracle sequence, a run of the state machinery on a non-DCP
connection executes at most numEvents plus the potential of the starting
state many command bodies before it yields. -/
lemma runLoop_bound (os : List Oracle) :
    ∀ c : SMConn, c.dcp = false → c.state ≠ CState.ship_log →
      c.write_and_go = CState.new_cmd →
      (runLoop c os).2 ≤ c.numEvents.toNat + phi c.state := by
  induction os with
  | nil =>
      intro c _ _ _
      simp [runLoop]
  | cons o os ih =>
      intro c h1 h2 h3
      simp only [runLoop]
      cases hs : step c o with
      | none => simp
      | some q =>
          obtain ⟨g1, g2, g3, g4, g5⟩ := step_bound h1 h2 h3 hs
          obtain ⟨c', k, d⟩ := q
          cases k with
          | true =>
              have hrec := ih c' g1 g2 g3
              have hb := g4 rfl
              simp only [if_true]
              simp only [Prod.fst, Prod.snd] at *
              omega
          | false =>
              have hb := g5 rfl
              simp only [Bool.false_eq_true, if_false]
              simp only [Prod.fst, Prod.snd] at *
              omega

/-- C1 amended: a non-DCP connection (in any state other than ship_log, with
the normal write_and_go of new_cmd) executes at most max_reqs_per_event + 1
command bodies between two consecutive yields to the reactor: the budget is
refilled to max_reqs_per_event on entry and one extra body is possible when
the timeslice begins with a command already in flight (a state of potential
one, e.g. read_packet_header), whose decrement was paid before the previous
yield.  DCP connections are excluded: conn_ship_log refills numEvents
whenever fresh input arrives, so no fixed bound holds for them. -/
theorem c1_yield_bound_amended (c : SMConn) (evRead evWrite : Bool)
    (os : List Oracle) (h1 : c.dcp = false)
    (h2 : c.state ≠ CState.ship_log)
    (h3 : c.write_and_go = CState.new_cmd) :
    (runEventLoop c evRead evWrite os).2 ≤ c.max_reqs_per_event.toNat + 1 := by
  have hb :=
    runLoop_bound os
      { c with
        numEvents := c.max_reqs_per_event
        evRead := evRead
        evWrite := evWrite } h1 h2 h3
  have hp := phi_le_one c.state
  simp only [runEventLoop]
  simp only at hb
  omega

/-- C1 witness: the concrete first timeslice of c1start stays within the
bound. -/
theorem c1_yield_bound_witness :
    (runEventLoop c1start true false c1osA).2 ≤
      c1start.max_reqs_per_event.toNat + 1 :=
  c1_yield_bound_amended c1start true false c1osA rfl (by decide) rfl

/-- C1 counterexample: the claim as stated (at most max_reqs_per_event
command bodies between two consecutive yields) fails on the concrete
non-DCP connection c1start with max_reqs_per_event = 1: its first timeslice
executes no command and yields in read_packet_header (from conn_waiting),
and the next timeslice — between two consecutive yields — executes 2
command bodies, because the frame already in flight at entry executes
without passing the conn_new_cmd decrement. -/
theorem c1_yield_bound_counterexample :
    (runEventLoop c1start true false c1osA).2 = 0 ∧
    (runEventLoop c1start true false c1osA).1.state =
      CState.read_packet_header ∧
    (runEventLoop (runEventLoop c1start true false c1osA).1 true false
        c1osB).2 = 2 ∧
    c1start.max_reqs_per_event = 1 ∧ c1start.dcp = false := by decide
